import Mathlib

/-!
Verification development for `src/main.py` of bb-assistant-ai, a
HackerOne bug-bounty program analyzer.

JSON values (the results of `response.json()`) are modeled by an
inductive type; Python dictionary access, truthiness, `str()`
rendering and `int()` parsing are modeled explicitly.  Network calls
are parameters of the embedded functions: each HTTP-layer result is
passed in as an `Except String Json` value, whose `.error` case stands
for a `requests.RequestException` raised by the call (the only
exception class the source catches).  An `Except String _` result of
an embedded function models a Python exception propagating out of the
corresponding source function.
-/

/-- JSON values as returned by `response.json()`.  Numbers are modeled as
integers; the fields the program actually reads are strings and booleans. -/
inductive Json where
  | null
  | bool (b : Bool)
  | str  (s : String)
  | num  (n : Int)
  | arr  (elems : List Json)
  | obj  (fields : List (String × Json))

mutual

/-- Structural equality of JSON values, modeling the Python `==` test used
by `handle not in seen` in `search_programs_via_hacktivity`. -/
def Json.beq : Json → Json → Bool
  | .null, .null => true
  | .bool a, .bool b => a == b
  | .str a, .str b => a == b
  | .num a, .num b => a == b
  | .arr a, .arr b => Json.beqElems a b
  | .obj a, .obj b => Json.beqFields a b
  | _, _ => false

/-- Elementwise equality of JSON arrays. -/
def Json.beqElems : List Json → List Json → Bool
  | [], [] => true
  | a :: as, b :: bs => Json.beq a b && Json.beqElems as bs
  | _, _ => false

/-- Fieldwise equality of JSON objects. -/
def Json.beqFields : List (String × Json) → List (String × Json) → Bool
  | [], [] => true
  | (k1, v1) :: as, (k2, v2) :: bs => k1 == k2 && Json.beq v1 v2 && Json.beqFields as bs
  | _, _ => false

end

instance : BEq Json := ⟨Json.beq⟩

/-- Python truthiness (`if x:`) of a JSON value: `None`, `False`, `""`,
`0`, `[]` and the empty dict are falsy. -/
def Json.truthy : Json → Bool
  | .null => false
  | .bool b => b
  | .str s => !s.isEmpty
  | .num n => n != 0
  | .arr xs => !xs.isEmpty
  | .obj fs => !fs.isEmpty

/-- Python type name of a JSON value, as it appears in exception texts. -/
def pyTypeName : Json → String
  | .null => "NoneType"
  | .bool _ => "bool"
  | .str _ => "str"
  | .num _ => "int"
  | .arr _ => "list"
  | .obj _ => "dict"

/-- Message of the `AttributeError` raised by `x.get(...)` on a non-dict. -/
def noGetMsg (j : Json) : String :=
  "\x27" ++ pyTypeName j ++ "\x27 object has no attribute \x27get\x27"

/-- Models Python `x.get(key, default)`: a dict lookup with default, an
`AttributeError` (the `.error` case) on any non-dict value. -/
def getAttrD (j : Json) (key : String) (default : Json) : Except String Json :=
  match j with
  | .obj fs => .ok ((fs.lookup key).getD default)
  | other => .error (noGetMsg other)

/-- Models Python `x[key]` subscription (used for `search_result["data"]`). -/
def pySubscript (j : Json) (key : String) : Except String Json :=
  match j with
  | .obj fs =>
    match fs.lookup key with
    | some v => .ok v
    | none => .error ("KeyError: \x27" ++ key ++ "\x27")
  | other => .error ("TypeError: \x27" ++ pyTypeName other ++ "\x27 object is not subscriptable")

/-- Boolean prefix test on character lists. -/
def charsPrefix : List Char → List Char → Bool
  | [], _ => true
  | _ :: _, [] => false
  | a :: as, b :: bs => a == b && charsPrefix as bs

/-- Boolean contiguous-substring test on character lists. -/
def charsInfix (needle : List Char) : List Char → Bool
  | [] => needle.isEmpty
  | b :: bs => charsPrefix needle (b :: bs) || charsInfix needle bs

/-- Boolean substring containment on strings (Python `sub in s`). -/
def strContains (s pat : String) : Bool :=
  charsInfix pat.toList s.toList

/-- Models the Python membership test `"data" in x` from the selector's
handle-lookup branch: key test on dicts, substring test on strings,
element test on lists, `TypeError` otherwise. -/
def pyInData (j : Json) : Except String Bool :=
  match j with
  | .obj fs => .ok (fs.any (fun f => f.1 == "data"))
  | .str s => .ok (strContains s "data")
  | .arr xs => .ok (xs.any (fun x => x == Json.str "data"))
  | other => .error ("TypeError: argument of type \x27" ++ pyTypeName other ++ "\x27 is not iterable")

/-- Models Python iteration `for x in j`: elements of a list, keys of a
dict, characters of a string, `TypeError` otherwise. -/
def pyIter (j : Json) : Except String (List Json) :=
  match j with
  | .arr xs => .ok xs
  | .obj fs => .ok (fs.map (fun f => Json.str f.1))
  | .str s => .ok (s.toList.map (fun c => Json.str (String.mk [c])))
  | other => .error ("TypeError: \x27" ++ pyTypeName other ++ "\x27 object is not iterable")

/-- Comma-space separator used by Python container rendering. -/
def commaSep : List String → String
  | [] => ""
  | [x] => x
  | x :: xs => x ++ ", " ++ commaSep xs

mutual

/-- Python `repr()` of a JSON value (escaping of special characters inside
nested strings is elided; no value the program renders exercises it). -/
def pyRepr : Json → String
  | .null => "None"
  | .bool true => "True"
  | .bool false => "False"
  | .str s => "\x27" ++ s ++ "\x27"
  | .num n => toString n
  | .arr xs => "[" ++ commaSep (pyReprElems xs) ++ "]"
  | .obj fs => "\x7b" ++ commaSep (pyReprFields fs) ++ "\x7d"

/-- `repr()` of the elements of a list. -/
def pyReprElems : List Json → List String
  | [] => []
  | x :: xs => pyRepr x :: pyReprElems xs

/-- `repr()` of the key-value pairs of a dict. -/
def pyReprFields : List (String × Json) → List String
  | [] => []
  | (k, v) :: fs => ("\x27" ++ k ++ "\x27: " ++ pyRepr v) :: pyReprFields fs

end

/-- Python `str()` of a JSON value, as interpolated by f-strings. -/
def pyStr : Json → String
  | .str s => s
  | j => pyRepr j

/-- Digit run of a Python integer literal: decimal digits with single
underscores allowed between digits. -/
def pyDigitsAux : List Char → Nat → Option Nat
  | [], acc => some acc
  | c :: cs, acc =>
    if c.isDigit then pyDigitsAux cs (acc * 10 + (c.toNat - 48))
    else if c == '_' then
      match cs with
      | c2 :: cs2 =>
        if c2.isDigit then pyDigitsAux cs2 (acc * 10 + (c2.toNat - 48)) else none
      | [] => none
    else none

/-- Parses a nonempty unsigned digit run, Python-style. -/
def pyParseDigits : List Char → Option Nat
  | [] => none
  | c :: cs => if c.isDigit then pyDigitsAux cs (c.toNat - 48) else none

/-- Python `str.strip()` on the character list (ASCII whitespace). -/
def pyStripChars (cs : List Char) : List Char :=
  ((cs.dropWhile Char.isWhitespace).reverse.dropWhile Char.isWhitespace).reverse

/-- Models Python `s.strip()`. -/
def pyStrip (s : String) : String :=
  String.mk (pyStripChars s.toList)

/-- Models Python `int(s)` on a text string: surrounding whitespace is
stripped, then an optional sign and a digit run; `none` models the
`ValueError` raised on any other shape. -/
def pyInt (s : String) : Option Int :=
  match pyStripChars s.toList with
  | '+' :: cs => (pyParseDigits cs).map (fun v => (v : Int))
  | '-' :: cs => (pyParseDigits cs).map (fun v => -(v : Int))
  | cs => (pyParseDigits cs).map (fun v => (v : Int))

/-- Models Python `s.isdigit()` (restricted to ASCII digits). -/
def pyIsDigit (s : String) : Bool :=
  !s.isEmpty && s.toList.all Char.isDigit

/-- Models `get_hackerone_auth` (src/main.py lines 25-38).  The argument is
the text of the `.hackerone` file when it exists, `none` when it does not
(`key_file.is_file()` false). -/
def get_hackerone_auth (fileContent : Option String) : Option (String × String) :=
  match fileContent with
  | some raw =>
    let content := pyStrip raw
    if content.toList.contains ':' then
      let pre := content.toList.takeWhile (fun c => c != ':')
      let post := content.toList.drop (pre.length + 1)
      some (String.mk pre, String.mk post)
    else
      some ("api", content)
  | none => none

/-- Models `fetch_hackerone_programs` (src/main.py lines 41-51).  `http` is
the outcome of the `requests.get` / `raise_for_status` / `.json()` chain;
`.error` is a caught `requests.RequestException`.  The result pairs the
value of `data.get("data", [])` (or, in the outer `.error` case, an
uncaught exception from `.get` on a non-dict body) with the console
output. -/
def fetch_hackerone_programs (http : Except String Json) : Except String Json × List String :=
  match http with
  | .ok data =>
    match getAttrD data "data" (.arr []) with
    | .ok v => (.ok v, [])
    | .error e => (.error e, [])
  | .error e => (.ok (.arr []), ["Error fetching programs: " ++ e])

/-- Models `fetch_program_details` (src/main.py lines 54-63): returns the
parsed JSON body, or `none` (the `None` return) after logging a caught
`requests.RequestException`. -/
def fetch_program_details (http : Except String Json) : Option Json × List String :=
  match http with
  | .ok j => (some j, [])
  | .error e => (none, ["Error fetching program details: " ++ e])

/-- The f-string template of `fetch_hackerone_content` (src/main.py lines
108-117): `attrs = program.get("attributes", {})` followed by the
fixed-template block.  `.error` models the `AttributeError` raised by
`.get` when `program` (or the value of its `"attributes"` key) is not a
dict. -/
def formatProgramContent (handle : String) (program : Json) : Except String String :=
  match program with
  | .obj fs =>
    match (fs.lookup "attributes").getD (.obj []) with
    | .obj attrs =>
      .ok ("\nProgram: " ++ pyStr ((attrs.lookup "name").getD (.str handle))
        ++ "\nHandle: " ++ handle
        ++ "\nPolicy: " ++ pyStr ((attrs.lookup "policy").getD (.str "N/A"))
        ++ "\nSubmission State: " ++ pyStr ((attrs.lookup "submission_state").getD (.str "N/A"))
        ++ "\nState: " ++ pyStr ((attrs.lookup "state").getD (.str "N/A"))
        ++ "\nOffers Bounties: " ++ pyStr ((attrs.lookup "offers_bounties").getD (.bool false))
        ++ "\nOpen Scope: " ++ pyStr ((attrs.lookup "open_scope").getD (.bool false))
        ++ "\nCurrency: " ++ pyStr ((attrs.lookup "currency").getD (.str "N/A"))
        ++ "\n")
    | other => .error (noGetMsg other)
  | other => .error (noGetMsg other)

/-- The `AgentState` TypedDict (src/main.py lines 16-23).  Messages and
findings are modeled by their text content. -/
structure AgentState where
  messages : List String
  program_handle : String
  program_name : String
  program_content : String
  findings : List String
  summary : String

/-- The `initial_state` dict built in `main` (src/main.py lines 356-363). -/
def initial_state (programHandle programName : String) : AgentState :=
  { messages := ["Analyze HackerOne program: " ++ programName]
    program_handle := programHandle
    program_name := programName
    program_content := ""
    findings := []
    summary := "" }

/-- The `except` block of `fetch_hackerone_content` (src/main.py lines
123-127): the caught exception text is logged, stored inside
`program_content` and appended to the message log. -/
def fetchErrorPath (state : AgentState) (outsSoFar : List String) (e : String) :
    AgentState × List String :=
  let errorMsg := "Error fetching program: " ++ e
  ({ state with program_content := "Error: " ++ errorMsg
                messages := state.messages ++ [errorMsg] },
   outsSoFar ++ [errorMsg])

/-- Models `fetch_hackerone_content` (src/main.py lines 98-129).
`detailCall` is the outcome of the `fetch_program_details(handle, auth)`
call: `.error` models an exception raised by that call, `.ok (result,
prints)` its return value together with its console output.  A falsy
result triggers the `raise ValueError(...)`; both raises land in the
`except` block. -/
def fetch_hackerone_content (detailCall : Except String (Option Json × List String))
    (state : AgentState) : AgentState × List String :=
  let pre := ["Fetching program details for: " ++ state.program_handle]
  match detailCall with
  | .ok (program, callOuts) =>
    match program with
    | some p =>
      if p.truthy then
        match formatProgramContent state.program_handle p with
        | .ok content =>
          ({ state with program_content := content
                        messages := state.messages ++ ["Fetched HackerOne program: " ++ state.program_handle] },
           pre ++ callOuts
             ++ ["✓ Successfully fetched program details (" ++ toString content.length ++ " characters)"])
        | .error e => fetchErrorPath state (pre ++ callOuts) e
      else
        fetchErrorPath state (pre ++ callOuts)
          ("Could not fetch program details for " ++ state.program_handle)
    | none =>
      fetchErrorPath state (pre ++ callOuts)
        ("Could not fetch program details for " ++ state.program_handle)
  | .error e => fetchErrorPath state pre e

/-- The prompt template of `analyze_target` (src/main.py lines 142-151). -/
def analyzePrompt (content : String) : String :=
  "Analyze the following HackerOne program information and identify:\n1. Key vulnerability types they\x27re looking for\n2. Scope and assets included\n3. Any critical restrictions or out-of-scope items\n4. Reward information if available\n\nProgram Content:\n"
    ++ content ++ "\n\nProvide a structured analysis."

/-- Models `analyze_target` (src/main.py lines 140-157): one LLM call whose
response is appended to the message log and to `findings`. -/
def analyze_target (llm : String → String) (state : AgentState) : AgentState × List String :=
  let response := llm (analyzePrompt state.program_content)
  ({ state with messages := state.messages ++ [response]
                findings := state.findings ++ [response] },
   ["\n📊 Analysis:\n" ++ response])

/-- The prompt template of `search_vulnerabilities` (src/main.py lines
162-172). -/
def extractPrompt (content : String) : String :=
  "Based on this HackerOne program, extract and summarize:\n- Program name and scope\n- In-scope technologies and platforms\n- Vulnerability types accepted\n- Exclusions and restrictions\n- Key testing guidelines\n\nProgram Content:\n"
    ++ content ++ "\n\nFormat the response as bullet points for clarity."

/-- Models `search_vulnerabilities` (src/main.py lines 160-178): the
"extract" stage; one LLM call appended to the message log and to
`findings`. -/
def search_vulnerabilities (llm : String → String) (state : AgentState) : AgentState × List String :=
  let response := llm (extractPrompt state.program_content)
  ({ state with messages := state.messages ++ [response]
                findings := state.findings ++ [response] },
   ["\n📋 Program Details:\n" ++ response])

/-- The prompt template of `generate_report` (src/main.py lines 184-208). -/
def reportPrompt (findingsText : String) : String :=
  "Create a professional, well-formatted Markdown summary of a HackerOne bug bounty program.\n\nIMPORTANT: Include COMPLETE and DETAILED Scope information. Do not omit any scope details.\n\nInclude these sections:\n# HackerOne Program Summary\n## Overview\n## Scope & Assets\n**REQUIRED**: Provide exhaustive details about:\n- All in-scope assets (domains, IPs, applications, APIs, Wildcards, etc.)\n- Asset types and categories\n- Scope limitations and boundaries\n- What is explicitly included in scope\n- Geographic or jurisdictional scope limits (if any)\n\n## Vulnerability Types Accepted\n## Exclusions & Out of Scope\n## Reward Structure\n## Testing Guidelines\n## Key Takeaways\n\nProgram Analysis:\n"
    ++ findingsText
    ++ "\n\nMake it professional, concise, and actionable for security researchers. **Most importantly, do not abbreviate or generalize the Scope & Assets section - include all specific details.**"

/-- Models `generate_report` + `save_summary_to_file` (src/main.py lines
132-136 and 181-219): the summarize stage sets `summary` and writes the
response text to `hackerone_summary.md`.  Result: (state, files written,
console output); the success print shows the relative filename (the
source prints the environment-dependent absolute path). -/
def generate_report (llm : String → String) (state : AgentState) :
    AgentState × List (String × String) × List String :=
  let findingsText := String.intercalate "\n" state.findings
  let response := llm (reportPrompt findingsText)
  ({ state with messages := state.messages ++ [response]
                summary := response },
   ([("hackerone_summary.md", response)],
    ["✓ Summary saved to: hackerone_summary.md", "\n📄 Generated Summary:\n" ++ response]))

/-- Models `build_agent_graph` plus `agent.invoke` (src/main.py lines
222-240 and 368): the compiled graph runs the four nodes in the wired
linear order START → fetch → analyze → extract → summarize → END.
Returns the final state, the files written, and the console output of
the stages. -/
def build_agent_graph (llm : String → String)
    (detailCall : Except String (Option Json × List String))
    (state : AgentState) : AgentState × List (String × String) × List String :=
  let r1 := fetch_hackerone_content detailCall state
  let r2 := analyze_target llm r1.1
  let r3 := search_vulnerabilities llm r2.1
  let r4 := generate_report llm r3.1
  (r4.1, r4.2.1, r1.2 ++ r2.2 ++ r3.2 ++ r4.2.2)

/-- The per-item extraction of `search_programs_via_hacktivity` (src/main.py
lines 292-295): `item.get("relationships", {}).get("program", {}).get("data", {})`,
then `.get("attributes", {})`, then `attrs.get("handle")` and
`attrs.get("name")`.  `.error` models an `AttributeError` from `.get` on
a non-dict intermediate value. -/
def extractHandleName (item : Json) : Except String (Json × Json) :=
  match getAttrD item "relationships" (.obj []) with
  | .error e => .error e
  | .ok rel =>
    match getAttrD rel "program" (.obj []) with
    | .error e => .error e
    | .ok prog0 =>
      match getAttrD prog0 "data" (.obj []) with
      | .error e => .error e
      | .ok prog =>
        match getAttrD prog "attributes" (.obj []) with
        | .error e => .error e
        | .ok attrs =>
          match getAttrD attrs "handle" .null with
          | .error e => .error e
          | .ok handle =>
            match getAttrD attrs "name" .null with
            | .error e => .error e
            | .ok name => .ok (handle, name)

/-- The partial program record `{"attributes": {"handle": handle, "name":
name}}` built by the hacktivity search (src/main.py line 298). -/
def mkProgramRec (handle name : Json) : Json :=
  .obj [("attributes", .obj [("handle", handle), ("name", name)])]

/-- The accumulation loop of `search_programs_via_hacktivity` (src/main.py
lines 289-298): `seen` models the `seen` set (as the list of handles in
insertion order), `acc` the `programs` list.  An item is kept when its
handle is truthy and not yet seen. -/
def hacktivityLoop : List Json → List Json → List Json → Except String (List Json)
  | [], _, acc => .ok acc
  | item :: rest, seen, acc =>
    match extractHandleName item with
    | .error e => .error e
    | .ok (handle, name) =>
      if handle.truthy && !(seen.contains handle) then
        hacktivityLoop rest (seen ++ [handle]) (acc ++ [mkProgramRec handle name])
      else
        hacktivityLoop rest seen acc

/-- Models `search_programs_via_hacktivity` (src/main.py lines 275-302).
`http` is the outcome of the `requests.get` / `raise_for_status` /
`.json()` chain; a caught `requests.RequestException` degrades to the
empty list with a console diagnostic, while the outer `.error` case
models an uncaught exception (`AttributeError`/`TypeError`) from the
body processing. -/
def search_programs_via_hacktivity (http : Except String Json) :
    Except String (List Json) × List String :=
  match http with
  | .error e => (.ok [], ["Error searching programs via hacktivity: " ++ e])
  | .ok body =>
    match getAttrD body "data" (.arr []) with
    | .error e => (.error e, [])
    | .ok dataVal =>
      match pyIter dataVal with
      | .error e => (.error e, [])
      | .ok items => (hacktivityLoop items [] [], [])

/-- The lookup `x.get("attributes", {}).get("name")` used by the selector's
"Selected program ..." print (src/main.py line 328). -/
def selAttrsName (prog : Json) : Except String Json :=
  match getAttrD prog "attributes" (.obj []) with
  | .error e => .error e
  | .ok attrs => getAttrD attrs "name" .null

/-- One line of the hacktivity-match display (src/main.py lines 320-322). -/
def matchLine (i : Nat) (prog : Json) : Except String String :=
  match getAttrD prog "attributes" (.obj []) with
  | .error e => .error e
  | .ok attrs =>
    match getAttrD attrs "name" .null with
    | .error e => .error e
    | .ok nm =>
      match getAttrD attrs "handle" .null with
      | .error e => .error e
      | .ok hd => .ok (toString i ++ ". " ++ pyStr nm ++ " (" ++ pyStr hd ++ ")")

/-- The hacktivity-match display loop (`enumerate(hack_matches, 1)`),
numbering from `i`. -/
def listMatches : Nat → List Json → Except String (List String)
  | _, [] => .ok []
  | i, p :: ps =>
    match matchLine i p with
    | .error e => .error e
    | .ok l =>
      match listMatches (i + 1) ps with
      | .error e => .error e
      | .ok ls => .ok (l :: ls)

/-- Outcome of one iteration of the selection `while` loop in `main`:
either a program was selected (`break`), or the loop re-prompts at the
choice prompt (`continue` or fall-through to the next iteration), or an
uncaught exception escapes the loop. -/
inductive StepResult where
  | resolved (program : Json)
  | reprompt
  | crash (msg : String)

/-- Models one iteration of the selection loop in `main` (src/main.py lines
304-343).  `programs` is the listed program sequence; `hackMatches` is
the result of the `search_programs_via_hacktivity(query, auth)` call and
`detailResult` the result of the `fetch_program_details(query, auth)`
call — the two network calls the iteration can make, passed as stub
results; `choice`, `query` and `sel` are the stripped console inputs
read by the iteration, in prompt order.  Returns the outcome and the
console output of the iteration. -/
def mainLoopStep (programs hackMatches : List Json) (detailResult : Option Json)
    (choice query sel : String) : StepResult × List String :=
  match pyInt choice with
  | none => (.reprompt, ["Invalid input. Please enter a number."])
  | some c =>
    let idx : Int := c - 1
    if 0 ≤ idx ∧ idx < (programs.length : Int) then
      (.resolved (programs.getD idx.toNat .null), [])
    else if idx = (programs.length : Int) then
      if query = "" then (.reprompt, ["Search term cannot be empty."])
      else
        match listMatches 1 hackMatches with
        | .error e => (.crash e, ["Programs found via hacktivity search:"])
        | .ok lines =>
          let outs := "Programs found via hacktivity search:" :: lines
          let selIdx : Int := (pyInt sel).getD 0 - 1
          if pyIsDigit sel = true ∧ 0 ≤ selIdx ∧ selIdx < (hackMatches.length : Int) then
            match selAttrsName (hackMatches.getD selIdx.toNat .null) with
            | .error e => (.crash e, outs)
            | .ok nm =>
              (.resolved (hackMatches.getD selIdx.toNat .null),
               outs ++ ["Selected program " ++ pyStr nm ++ " from hacktivity results"])
          else
            let outs2 := outs ++ ["\nSearching for program by handle: " ++ query ++ "..."]
            match detailResult with
            | some r =>
              if r.truthy then
                match pyInData r with
                | .error e => (.crash e, outs2)
                | .ok true =>
                  match pySubscript r "data" with
                  | .error e => (.crash e, outs2)
                  | .ok v => (.resolved v, outs2)
                | .ok false =>
                  (.reprompt,
                   outs2 ++ ["Program \x27" ++ query ++ "\x27 not found or you don\x27t have access."])
              else
                (.reprompt,
                 outs2 ++ ["Program \x27" ++ query ++ "\x27 not found or you don\x27t have access."])
            | none =>
              (.reprompt,
               outs2 ++ ["Program \x27" ++ query ++ "\x27 not found or you don\x27t have access."])
    else
      (.reprompt, ["Please enter a number between 1 and " ++ toString (programs.length + 1)])

/-- One line of the program listing printed in `main` before the selection
loop (src/main.py lines 262-266). -/
def programListingLine (i : Nat) (prog : Json) : Except String String :=
  match getAttrD prog "attributes" (.obj []) with
  | .error e => .error e
  | .ok attrs =>
    match getAttrD prog "id" .null with
    | .error e => .error e
    | .ok idv =>
      match getAttrD attrs "name" idv with
      | .error e => .error e
      | .ok nm =>
        match getAttrD attrs "handle" (.str "unknown") with
        | .error e => .error e
        | .ok hd => .ok (toString i ++ ". " ++ pyStr nm ++ " (" ++ pyStr hd ++ ")")

/-- The numbered program lines of the pre-loop listing, numbering from `i`. -/
def programListingLines : Nat → List Json → Except String (List String)
  | _, [] => .ok []
  | i, p :: ps =>
    match programListingLine i p with
    | .error e => .error e
    | .ok l =>
      match programListingLines (i + 1) ps with
      | .error e => .error e
      | .ok ls => .ok (l :: ls)

/-- The full program listing of `main` (src/main.py lines 261-267):
numbered program lines plus the search-option line.  This display runs
once, before the selection loop. -/
def programListing (programs : List Json) : Except String (List String) :=
  match programListingLines 1 programs with
  | .error e => .error e
  | .ok ls => .ok (ls ++ [toString (programs.length + 1) ++ ". 🔍 Search for another program"])

/-- The handle-and-name pairs the hacktivity loop extracts, in feed order,
with items whose handle is missing or falsy omitted (comparison
definition for the search claim, following the specification text:
partial records are derived per feed item and items lacking a handle
are omitted). -/
def extractedPairs (items : List Json) : List (Json × Json) :=
  items.filterMap (fun item =>
    match extractHandleName item with
    | .ok (handle, name) => if handle.truthy then some (handle, name) else none
    | .error _ => none)

/-- Keep-first deduplication by handle (comparison definition for the
search claim, following the specification text: each handle appears at
most once, the first occurrence wins, and records keep first-occurrence
order). -/
def dedupFirstPairs : List (Json × Json) → List (Json × Json)
  | [] => []
  | p :: ps => p :: dedupFirstPairs (ps.filter (fun q => !(q.1 == p.1)))
termination_by l => l.length
decreasing_by simp; exact Nat.lt_succ_of_le (List.length_filter_le _ _)

/-- The handle stored inside a partial program record built by the search. -/
def recHandle (r : Json) : Json :=
  match r with
  | .obj fs =>
    match (fs.lookup "attributes").getD .null with
    | .obj attrs => (attrs.lookup "handle").getD .null
    | _ => .null
  | _ => .null

/-- The fetch stage never touches `summary`, `findings`, `program_handle` or
`program_name`, whichever branch it takes. -/
theorem fetch_hackerone_content_frame (dc : Except String (Option Json × List String))
    (st : AgentState) :
    (fetch_hackerone_content dc st).1.summary = st.summary
  ∧ (fetch_hackerone_content dc st).1.findings = st.findings := by
  rcases dc with e | ⟨program, callOuts⟩
  · simp [fetch_hackerone_content, fetchErrorPath]
  · rcases program with _ | p
    · simp [fetch_hackerone_content, fetchErrorPath]
    · by_cases hp : p.truthy = true
      · rcases hfmt : formatProgramContent st.program_handle p with e2 | content
        · simp [fetch_hackerone_content, fetchErrorPath, hp, hfmt]
        · simp [fetch_hackerone_content, hp, hfmt]
      · simp [fetch_hackerone_content, fetchErrorPath, hp]

/-- C6 (counterexample): the claim says an empty credential file yields the
"missing" signal, but on empty content the code takes the no-colon branch
and returns the placeholder pair `("api", "")` instead of `None`. -/
theorem c6_credentials_counterexample :
    get_hackerone_auth (some "") = some ("api", "") ∧ get_hackerone_auth (some "") ≠ none := by
  exact ⟨by decide, by decide⟩

/-- C6 (amended): credential parsing splits on the first colon
(`"alice:tok123"` to `("alice", "tok123")`); content with no colon parses
to the placeholder principal `"api"` paired with the whole stripped
content — including the empty string for an empty file; only a missing
file yields `none`. -/
theorem c6_credentials_amended :
    get_hackerone_auth (some "alice:tok123") = some ("alice", "tok123")
  ∧ get_hackerone_auth (some "tok123") = some ("api", "tok123")
  ∧ get_hackerone_auth none = none
  ∧ ∀ raw : String, ((pyStrip raw).toList.contains ':') = false →
      get_hackerone_auth (some raw) = some ("api", pyStrip raw) := by
  refine ⟨by decide, by decide, rfl, ?_⟩
  intro raw h
  simp only [get_hackerone_auth]
  rw [if_neg (fun hc => Bool.noConfusion (h.symm.trans hc))]

/-- C6 (witness for the amended claim). -/
theorem c6_credentials_witness :
    ((pyStrip "").toList.contains ':') = false
  ∧ get_hackerone_auth (some "") = some ("api", pyStrip "") :=
  ⟨by decide, c6_credentials_amended.2.2.2 "" (by decide)⟩

/-- C9: each directory-lookup operation degrades on a caught network
failure instead of raising: the program-list fetch returns the empty
sequence, the program-detail fetch returns `None`, and the hacktivity
search returns the empty list — each printing a console diagnostic and
propagating nothing to the caller. -/
theorem c9_directory_failures_degrade (e : String) :
    fetch_hackerone_programs (.error e) = (.ok (.arr []), ["Error fetching programs: " ++ e])
  ∧ fetch_program_details (.error e) = (none, ["Error fetching program details: " ++ e])
  ∧ search_programs_via_hacktivity (.error e)
      = (.ok [], ["Error searching programs via hacktivity: " ++ e]) :=
  ⟨rfl, rfl, rfl⟩

/-- C3: for every program-detail response of the shape the selector's
handle-lookup branch accepts — a JSON object with a top-level `"data"`
field — the fetch stage looks up `"attributes"` at the top level of the
response, so whatever `d` holds, the formatted content renders the
program name as the bare handle, the textual attributes as `"N/A"`, and
both boolean flags as `False`. -/
theorem c3_top_level_attributes_default (d : Json) (h n : String) :
    (fetch_hackerone_content (.ok (fetch_program_details (.ok (.obj [("data", d)]))))
        (initial_state h n)).1.program_content
      = "\nProgram: " ++ h ++ "\nHandle: " ++ h ++ "\nPolicy: " ++ "N/A"
        ++ "\nSubmission State: " ++ "N/A" ++ "\nState: " ++ "N/A"
        ++ "\nOffers Bounties: " ++ "False" ++ "\nOpen Scope: " ++ "False"
        ++ "\nCurrency: " ++ "N/A" ++ "\n" := rfl

/-- C5 (counterexample): the claim says every missing textual attribute
renders as the literal `"N/A"`, but a record with no `name` attribute
renders the program name as the handle (`attrs.get('name', handle)`),
not as `"N/A"`. -/
theorem c5_formatter_counterexample :
    formatProgramContent "acme" (.obj [])
      = .ok "\nProgram: acme\nHandle: acme\nPolicy: N/A\nSubmission State: N/A\nState: N/A\nOffers Bounties: False\nOpen Scope: False\nCurrency: N/A\n"
  ∧ ("\nProgram: acme\nHandle: acme\nPolicy: N/A\nSubmission State: N/A\nState: N/A\nOffers Bounties: False\nOpen Scope: False\nCurrency: N/A\n"
      : String)
      ≠ "\nProgram: N/A\nHandle: acme\nPolicy: N/A\nSubmission State: N/A\nState: N/A\nOffers Bounties: False\nOpen Scope: False\nCurrency: N/A\n" :=
  ⟨rfl, by decide⟩

/-- C5 (amended): the content formatter is a pure function of the handle
and the program record; a missing `name` renders as the handle, the
other missing textual attributes (`policy`, `submission_state`,
`state`, `currency`) render as the literal `"N/A"`, missing boolean
attributes render as `False`, and a present policy string is embedded
verbatim with no escaping of markdown-significant characters. -/
theorem c5_formatter_amended (h p : String) :
    formatProgramContent h (.obj [("attributes", .obj [("policy", .str p)])])
      = .ok ("\nProgram: " ++ h ++ "\nHandle: " ++ h ++ "\nPolicy: " ++ p
        ++ "\nSubmission State: " ++ "N/A" ++ "\nState: " ++ "N/A"
        ++ "\nOffers Bounties: " ++ "False" ++ "\nOpen Scope: " ++ "False"
        ++ "\nCurrency: " ++ "N/A" ++ "\n") := rfl

/-- C1: with the program-directory stub returning one fixed program and
the LLM stub returning the same fixed nonempty string `s` for every
prompt, the four-stage pipeline leaves `summary` empty after the fetch,
analyze and extract stages, and after the summarize stage produces a
final state with `findings` of length exactly 2, a non-empty `summary`
equal to `s`, and exactly one file write: `hackerone_summary.md` with
content exactly `s`. -/
theorem c1_pipeline_end_to_end (h n : String) (prog : Json) (s : String) (hs : s ≠ "") :
    (fetch_hackerone_content (.ok (fetch_program_details (.ok prog))) (initial_state h n)).1.summary = ""
  ∧ (analyze_target (fun _ => s)
      (fetch_hackerone_content (.ok (fetch_program_details (.ok prog))) (initial_state h n)).1).1.summary = ""
  ∧ (search_vulnerabilities (fun _ => s)
      (analyze_target (fun _ => s)
        (fetch_hackerone_content (.ok (fetch_program_details (.ok prog))) (initial_state h n)).1).1).1.summary = ""
  ∧ (build_agent_graph (fun _ => s) (.ok (fetch_program_details (.ok prog))) (initial_state h n)).1.summary = s
  ∧ (build_agent_graph (fun _ => s) (.ok (fetch_program_details (.ok prog))) (initial_state h n)).1.summary ≠ ""
  ∧ (build_agent_graph (fun _ => s) (.ok (fetch_program_details (.ok prog))) (initial_state h n)).1.findings.length = 2
  ∧ (build_agent_graph (fun _ => s) (.ok (fetch_program_details (.ok prog))) (initial_state h n)).2.1
      = [("hackerone_summary.md", s)] := by
  have hf := fetch_hackerone_content_frame (.ok (fetch_program_details (.ok prog))) (initial_state h n)
  refine ⟨hf.1.trans rfl, hf.1.trans rfl, hf.1.trans rfl, rfl, hs, ?_, rfl⟩
  have h1 : (build_agent_graph (fun _ => s) (.ok (fetch_program_details (.ok prog))) (initial_state h n)).1.findings
      = (fetch_hackerone_content (.ok (fetch_program_details (.ok prog))) (initial_state h n)).1.findings
          ++ [s] ++ [s] := rfl
  rw [h1, hf.2]
  rfl

/-- C1 (witness). -/
theorem c1_pipeline_witness :
    ("REPORT" : String) ≠ ""
  ∧ ((fetch_hackerone_content
        (.ok (fetch_program_details (.ok (.obj [("attributes",
          Json.obj [("name", .str "Acme"), ("handle", .str "acme"), ("policy", .str "P")])]))))
        (initial_state "acme" "Acme")).1.summary = ""
    ∧ (analyze_target (fun _ => "REPORT")
        (fetch_hackerone_content
          (.ok (fetch_program_details (.ok (.obj [("attributes",
            Json.obj [("name", .str "Acme"), ("handle", .str "acme"), ("policy", .str "P")])]))))
          (initial_state "acme" "Acme")).1).1.summary = ""
    ∧ (search_vulnerabilities (fun _ => "REPORT")
        (analyze_target (fun _ => "REPORT")
          (fetch_hackerone_content
            (.ok (fetch_program_details (.ok (.obj [("attributes",
              Json.obj [("name", .str "Acme"), ("handle", .str "acme"), ("policy", .str "P")])]))))
            (initial_state "acme" "Acme")).1).1).1.summary = ""
    ∧ (build_agent_graph (fun _ => "REPORT")
        (.ok (fetch_program_details (.ok (.obj [("attributes",
          Json.obj [("name", .str "Acme"), ("handle", .str "acme"), ("policy", .str "P")])]))))
        (initial_state "acme" "Acme")).1.summary = "REPORT"
    ∧ (build_agent_graph (fun _ => "REPORT")
        (.ok (fetch_program_details (.ok (.obj [("attributes",
          Json.obj [("name", .str "Acme"), ("handle", .str "acme"), ("policy", .str "P")])]))))
        (initial_state "acme" "Acme")).1.summary ≠ ""
    ∧ (build_agent_graph (fun _ => "REPORT")
        (.ok (fetch_program_details (.ok (.obj [("attributes",
          Json.obj [("name", .str "Acme"), ("handle", .str "acme"), ("policy", .str "P")])]))))
        (initial_state "acme" "Acme")).1.findings.length = 2
    ∧ (build_agent_graph (fun _ => "REPORT")
        (.ok (fetch_program_details (.ok (.obj [("attributes",
          Json.obj [("name", .str "Acme"), ("handle", .str "acme"), ("policy", .str "P")])]))))
        (initial_state "acme" "Acme")).2.1 = [("hackerone_summary.md", "REPORT")]) :=
  ⟨by decide,
   c1_pipeline_end_to_end "acme" "Acme"
     (.obj [("attributes",
       Json.obj [("name", .str "Acme"), ("handle", .str "acme"), ("policy", .str "P")])])
     "REPORT" (by decide)⟩

/-- C2: if the program-detail lookup of the fetch stage fails — it returns
the not-found signal `None` or raises — the fetch stage does not raise:
it stores a `program_content` containing the literal substring
`"Error:"`, appends an error message to the message log, and the
pipeline still executes the analyze, extract and summarize stages
(findings reach length 2, the summary is written, the report file is
produced). -/
theorem c2_fetch_failure_degrade (h n s : String)
    (dc : Except String (Option Json × List String))
    (hfail : (∃ e, dc = .error e) ∨ ∃ outs, dc = .ok (none, outs)) :
    (∃ pre post, (fetch_hackerone_content dc (initial_state h n)).1.program_content
        = pre ++ "Error:" ++ post)
  ∧ (∃ em, (fetch_hackerone_content dc (initial_state h n)).1.messages
        = (initial_state h n).messages ++ [em])
  ∧ (build_agent_graph (fun _ => s) dc (initial_state h n)).1.findings.length = 2
  ∧ (build_agent_graph (fun _ => s) dc (initial_state h n)).1.summary = s
  ∧ (build_agent_graph (fun _ => s) dc (initial_state h n)).2.1
      = [("hackerone_summary.md", s)] := by
  obtain ⟨e, rfl⟩ | ⟨outs, rfl⟩ := hfail
  · exact ⟨⟨"", " Error fetching program: " ++ e, rfl⟩,
      ⟨"Error fetching program: " ++ e, rfl⟩, rfl, rfl, rfl⟩
  · exact ⟨⟨"", " Error fetching program: Could not fetch program details for " ++ h, rfl⟩,
      ⟨"Error fetching program: Could not fetch program details for " ++ h, rfl⟩, rfl, rfl, rfl⟩

/-- An in-bounds `getD` element is a member of the list. -/
theorem getD_mem_of_lt (l : List Json) (nn : Nat) (hlt : nn < l.length) :
    l.getD nn .null ∈ l := by
  have h1 : l.getD nn .null = l.get ⟨nn, hlt⟩ := by
    simp [List.getD_eq_getElem?_getD, List.getElem?_eq_getElem hlt, List.get_eq_getElem]
  rw [h1]
  exact List.get_mem l nn hlt

/-- A numeric choice in `[1, N]` resolves immediately to the program at
that position, with no further console output. -/
theorem mainLoopStep_numeric_select (programs hackMatches : List Json)
    (detailResult : Option Json) (choice query sel : String) (k : Int)
    (hk : pyInt choice = some k) (h1 : 1 ≤ k) (h2 : k ≤ (programs.length : Int)) :
    mainLoopStep programs hackMatches detailResult choice query sel
      = (.resolved (programs.getD (k - 1).toNat .null), []) := by
  simp only [mainLoopStep, hk]
  rw [if_pos ⟨by omega, by omega⟩]

/-- If a match line printed successfully, the name lookup used by the
"Selected program" print succeeds on the same record. -/
theorem matchLine_ok_selAttrsName (i : Nat) (p : Json) (l : String)
    (h : matchLine i p = .ok l) : ∃ nm, selAttrsName p = .ok nm := by
  unfold matchLine at h
  split at h
  next e heq => cases h
  next attrs heq =>
    split at h
    next e2 heq2 => cases h
    next nm heq2 =>
      refine ⟨nm, ?_⟩
      unfold selAttrsName
      rw [heq]
      exact heq2

/-- If the whole match display printed successfully, the name lookup
succeeds on every displayed record. -/
theorem listMatches_ok_selAttrsName (i : Nat) (ms : List Json) (ls : List String)
    (h : listMatches i ms = .ok ls) : ∀ p ∈ ms, ∃ nm, selAttrsName p = .ok nm := by
  induction ms generalizing i ls with
  | nil => intro p hp; cases hp
  | cons q qs ih =>
    intro p hp
    unfold listMatches at h
    split at h
    next e heq => cases h
    next l heq =>
      split at h
      next e2 heq2 => cases h
      next ls2 heq2 =>
        rcases List.mem_cons.mp hp with rfl | hp2
        · exact matchLine_ok_selAttrsName i p l heq
        · exact ih (i + 1) ls2 heq2 p hp2

/-- C7: in the main selection loop over an `N`-program list, numeric input
in `[1, N]` resolves directly to the program at that index and
terminates with no further prompt; out-of-range numeric input other
than the `N + 1` search option re-prompts with a bounds error, and
non-numeric input re-prompts with a format error — in both re-prompt
cases the outcome carries no selection and the loop state (the program
list) is untouched by construction. -/
theorem c7_main_loop_selection (programs hackMatches : List Json) (detailResult : Option Json)
    (choice query sel : String) :
    (∀ k : Int, pyInt choice = some k → 1 ≤ k → k ≤ (programs.length : Int) →
        mainLoopStep programs hackMatches detailResult choice query sel
          = (.resolved (programs.getD (k - 1).toNat .null), []))
  ∧ (∀ k : Int, pyInt choice = some k → (k < 1 ∨ (programs.length : Int) + 1 < k) →
        mainLoopStep programs hackMatches detailResult choice query sel
          = (.reprompt, ["Please enter a number between 1 and " ++ toString (programs.length + 1)]))
  ∧ (pyInt choice = none →
        mainLoopStep programs hackMatches detailResult choice query sel
          = (.reprompt, ["Invalid input. Please enter a number."])) := by
  refine ⟨?_, ?_, ?_⟩
  · intro k hk h1 h2
    exact mainLoopStep_numeric_select programs hackMatches detailResult choice query sel k hk h1 h2
  · intro k hk hk2
    simp only [mainLoopStep, hk]
    rw [if_neg (by omega), if_neg (by omega)]
  · intro hnone
    simp only [mainLoopStep, hnone]

/-- C7 (witness). -/
theorem c7_main_loop_witness :
    pyInt "2" = some 2
  ∧ mainLoopStep [Json.str "p1", .str "p2", .str "p3"] [] none "2" "q" "s"
      = (.resolved (.str "p2"), [])
  ∧ pyInt "5" = some 5
  ∧ mainLoopStep [Json.str "p1", .str "p2", .str "p3"] [] none "5" "q" "s"
      = (.reprompt, ["Please enter a number between 1 and 4"])
  ∧ pyInt "abc" = none
  ∧ mainLoopStep [Json.str "p1", .str "p2", .str "p3"] [] none "abc" "q" "s"
      = (.reprompt, ["Invalid input. Please enter a number."]) :=
  ⟨by decide,
   (c7_main_loop_selection [Json.str "p1", .str "p2", .str "p3"] [] none "2" "q" "s").1
     2 (by decide) (by decide) (by decide),
   by decide,
   (c7_main_loop_selection [Json.str "p1", .str "p2", .str "p3"] [] none "5" "q" "s").2.1
     5 (by decide) (by decide),
   by decide,
   (c7_main_loop_selection [Json.str "p1", .str "p2", .str "p3"] [] none "abc" "q" "s").2.2
     (by decide)⟩

/-- C4 (counterexample): the claim says any search-selection input other
than an in-range number or an empty response prints an error and
re-prompts at the same state; but on the non-numeric input `"abc"` the
code falls through to the direct handle lookup of the query and — the
lookup returning a body with a `"data"` field — terminates with that
result, printing no error. -/
theorem c4_search_substate_counterexample :
    mainLoopStep [.obj [("attributes", .obj [("name", .str "P1"), ("handle", .str "p1")])]]
        [.obj [("attributes", .obj [("name", .str "M1"), ("handle", .str "m1")])]]
        (some (.obj [("data", .str "D")])) "2" "acme" "abc"
      = (.resolved (.str "D"),
         ["Programs found via hacktivity search:", "1. M1 (m1)",
          "\nSearching for program by handle: acme..."])
  ∧ ∀ outs : List String,
      mainLoopStep [.obj [("attributes", .obj [("name", .str "P1"), ("handle", .str "p1")])]]
          [.obj [("attributes", .obj [("name", .str "M1"), ("handle", .str "m1")])]]
          (some (.obj [("data", .str "D")])) "2" "acme" "abc"
        ≠ (.reprompt, outs) := by
  refine ⟨rfl, ?_⟩
  intro outs hcontra
  have h1 : StepResult.resolved (.str "D") = StepResult.reprompt := congrArg Prod.fst hcontra
  cases h1

/-- C4 (amended): in the search sub-state, after the hacktivity matches
are displayed, an in-range numeric selection resolves to that match and
terminates; every other input — empty, non-numeric or out-of-range
numeric alike — falls through to treating the original query as a
handle via the program-detail lookup: a found body with a `"data"`
field is terminal, and a not-found lookup prints a not-found message
and re-prompts at the main choice prompt (not at the search state). -/
theorem c4_search_substate_amended (programs hackMatches : List Json)
    (detailResult : Option Json) (choice query sel : String) (lines : List String)
    (hchoice : pyInt choice = some ((programs.length : Int) + 1))
    (hquery : ¬query = "")
    (hlist : listMatches 1 hackMatches = .ok lines) :
    (∀ j : Int, pyInt sel = some j → pyIsDigit sel = true → 1 ≤ j →
        j ≤ (hackMatches.length : Int) →
        (mainLoopStep programs hackMatches detailResult choice query sel).1
          = .resolved (hackMatches.getD (j - 1).toNat .null))
  ∧ ((pyIsDigit sel = true → ∀ j : Int, pyInt sel = some j →
          j < 1 ∨ (hackMatches.length : Int) < j) →
      (detailResult = none →
          mainLoopStep programs hackMatches detailResult choice query sel
            = (.reprompt,
               ("Programs found via hacktivity search:" :: lines)
                 ++ ["\nSearching for program by handle: " ++ query ++ "..."]
                 ++ ["Program \x27" ++ query ++ "\x27 not found or you don\x27t have access."]))
      ∧ ∀ v : Json, detailResult = some (.obj [("data", v)]) →
          (mainLoopStep programs hackMatches detailResult choice query sel).1
            = .resolved v) := by
  constructor
  · intro j hj hd h1 h2
    have hjn : ((j - 1).toNat : Int) = j - 1 := by omega
    have hlt : (j - 1).toNat < hackMatches.length := by omega
    obtain ⟨nm, hnm⟩ :=
      listMatches_ok_selAttrsName 1 hackMatches lines hlist
        (hackMatches.getD (j - 1).toNat .null) (getD_mem_of_lt hackMatches _ hlt)
    simp only [mainLoopStep, hchoice]
    rw [if_neg (by omega), if_pos (by omega), if_neg hquery]
    simp only [hlist, hj, Option.getD_some]
    rw [if_pos ⟨hd, by omega, by omega⟩]
    rw [hnm]
  · intro hno
    have hcondneg : ¬(pyIsDigit sel = true ∧ 0 ≤ (pyInt sel).getD 0 - 1
        ∧ (pyInt sel).getD 0 - 1 < (hackMatches.length : Int)) := by
      rintro ⟨hd, hge, hlt⟩
      rcases hs : pyInt sel with _ | j
      · simp only [hs, Option.getD_none] at hge
        omega
      · have := hno hd j hs
        simp only [hs, Option.getD_some] at hge hlt
        omega
    constructor
    · intro hdet
      subst hdet
      simp only [mainLoopStep, hchoice]
      rw [if_neg (by omega), if_pos (by omega), if_neg hquery]
      simp only [hlist]
      rw [if_neg hcondneg]
    · intro v hdet
      subst hdet
      simp only [mainLoopStep, hchoice]
      rw [if_neg (by omega), if_pos (by omega), if_neg hquery]
      simp only [hlist]
      rw [if_neg hcondneg]
      rfl

/-- C4 (witness for the amended claim). -/
theorem c4_search_substate_witness :
    pyInt "2" = some (([Json.str "pp"].length : Int) + 1)
  ∧ ¬("q" : String) = ""
  ∧ listMatches 1 [.obj [("attributes", .obj [("name", .str "M1"), ("handle", .str "m1")])]]
      = .ok ["1. M1 (m1)"]
  ∧ mainLoopStep [Json.str "pp"]
      [.obj [("attributes", .obj [("name", .str "M1"), ("handle", .str "m1")])]] none "2" "q" ""
      = (.reprompt,
         ["Programs found via hacktivity search:", "1. M1 (m1)",
          "\nSearching for program by handle: q...",
          "Program \x27q\x27 not found or you don\x27t have access."]) :=
  ⟨by decide, by decide, rfl,
   ((c4_search_substate_amended [Json.str "pp"]
       [.obj [("attributes", .obj [("name", .str "M1"), ("handle", .str "m1")])]]
       none "2" "q" "" ["1. M1 (m1)"] (by decide) (by decide) rfl).2
     (fun hd => absurd hd (by decide))).1 rfl⟩

/-- C8 (counterexample): the claim says that after a failed handle lookup
the original program list is re-listed; the listing, however, is
printed once before the selection loop, and the failing iteration's
console output contains the not-found message but no listing line. -/
theorem c8_not_found_counterexample :
    programListing [.obj [("attributes", .obj [("name", .str "Acme"), ("handle", .str "acme")])]]
      = .ok ["1. Acme (acme)", "2. 🔍 Search for another program"]
  ∧ mainLoopStep [.obj [("attributes", .obj [("name", .str "Acme"), ("handle", .str "acme")])]]
      [] none "2" "zzz" ""
      = (.reprompt,
         ["Programs found via hacktivity search:",
          "\nSearching for program by handle: zzz...",
          "Program \x27zzz\x27 not found or you don\x27t have access."])
  ∧ "1. Acme (acme)"
      ∉ (mainLoopStep [.obj [("attributes", .obj [("name", .str "Acme"), ("handle", .str "acme")])]]
          [] none "2" "zzz" "").2
  ∧ "Program \x27zzz\x27 not found or you don\x27t have access."
      ∈ (mainLoopStep [.obj [("attributes", .obj [("name", .str "Acme"), ("handle", .str "acme")])]]
          [] none "2" "zzz" "").2 :=
  ⟨rfl, rfl, by decide, by decide⟩

/-- C8 (amended): when the search fallback's direct handle lookup returns
not-found, the selector prints a not-found message and returns to the
main choice prompt over the unchanged original list — the original
numeric options `1..N` still resolve to the same programs and no
search state is retained — but the program list itself is not
re-printed (the listing runs once, before the loop). -/
theorem c8_not_found_amended (programs : List Json) (choice query : String)
    (hchoice : pyInt choice = some ((programs.length : Int) + 1))
    (hquery : ¬query = "") :
    mainLoopStep programs [] none choice query ""
      = (.reprompt,
         ["Programs found via hacktivity search:",
          "\nSearching for program by handle: " ++ query ++ "...",
          "Program \x27" ++ query ++ "\x27 not found or you don\x27t have access."])
  ∧ ∀ (k : Int) (hackMatches2 : List Json) (detail2 : Option Json) (c2 q2 s2 : String),
      pyInt c2 = some k → 1 ≤ k → k ≤ (programs.length : Int) →
      mainLoopStep programs hackMatches2 detail2 c2 q2 s2
        = (.resolved (programs.getD (k - 1).toNat .null), []) := by
  constructor
  · simp only [mainLoopStep, hchoice]
    rw [if_neg (by omega), if_pos (by omega), if_neg hquery]
    rfl
  · intro k hm2 d2 c2 q2 s2 hk h1 h2
    exact mainLoopStep_numeric_select programs hm2 d2 c2 q2 s2 k hk h1 h2

/-- C8 (witness for the amended claim). -/
theorem c8_not_found_witness :
    pyInt "2" = some (([Json.str "p1"].length : Int) + 1)
  ∧ ¬("zz" : String) = ""
  ∧ mainLoopStep [Json.str "p1"] [] none "2" "zz" ""
      = (.reprompt,
         ["Programs found via hacktivity search:",
          "\nSearching for program by handle: zz...",
          "Program \x27zz\x27 not found or you don\x27t have access."])
  ∧ mainLoopStep [Json.str "p1"] [] none "1" "x" "y" = (.resolved (.str "p1"), []) :=
  ⟨by decide, by decide,
   (c8_not_found_amended [Json.str "p1"] "2" "zz" (by decide) (by decide)).1,
   (c8_not_found_amended [Json.str "p1"] "2" "zz" (by decide) (by decide)).2
     1 [] none "1" "x" "y" (by decide) (by decide) (by decide)⟩

/-- Membership test against a `seen` list extended with one handle. -/
theorem contains_append_singleton (seen : List Json) (h x : Json) :
    (seen ++ [h]).contains x = (seen.contains x || x == h) := by
  induction seen with
  | nil =>
    simp only [List.nil_append]
    cases hxh : x == h <;> simp [List.contains, List.elem, hxh]
  | cons b bs ih =>
    simp only [List.cons_append, List.contains_cons] at *
    rw [ih, Bool.or_assoc]

/-- Every element of the deduplicated list comes from the input list. -/
theorem dedupFirstPairs_mem (l : List (Json × Json)) (b : Json × Json)
    (h : b ∈ dedupFirstPairs l) : b ∈ l := by
  induction l using dedupFirstPairs.induct with
  | case1 => simp [dedupFirstPairs] at h
  | case2 p ps ih =>
    rw [dedupFirstPairs] at h
    rcases List.mem_cons.mp h with rfl | h2
    · exact List.mem_cons_self _ _
    · exact List.mem_cons_of_mem _ (List.mem_of_mem_filter (ih h2))

/-- In the deduplicated list, any two entries carry different handles. -/
theorem dedupFirstPairs_pairwise (l : List (Json × Json)) :
    (dedupFirstPairs l).Pairwise (fun a b => (b.1 == a.1) = false) := by
  induction l using dedupFirstPairs.induct with
  | case1 => simp [dedupFirstPairs]
  | case2 p ps ih =>
    rw [dedupFirstPairs]
    refine List.Pairwise.cons ?_ ih
    intro b hb
    have hbf := dedupFirstPairs_mem _ b hb
    have h2 := (List.mem_filter.mp hbf).2
    simpa using h2

/-- Characterization of the hacktivity accumulation loop: a successful run
extends `acc` with the keep-first deduplication (relative to the handles
already in `seen`) of the extracted handle-name pairs, in feed order. -/
theorem hacktivityLoop_ok (items : List Json) :
    ∀ seen acc progs : List Json,
      hacktivityLoop items seen acc = .ok progs →
      progs = acc ++ (dedupFirstPairs ((extractedPairs items).filter
        (fun q => !(seen.contains q.1)))).map (fun q => mkProgramRec q.1 q.2) := by
  induction items with
  | nil =>
    intro seen acc progs h
    unfold hacktivityLoop at h
    cases h
    simp [extractedPairs, dedupFirstPairs]
  | cons item rest ih =>
    intro seen acc progs h
    unfold hacktivityLoop at h
    split at h
    next e heq => cases h
    next handle name heq =>
      by_cases ht : handle.truthy = true
      · by_cases hseen : seen.contains handle = true
        · rw [if_neg (by rw [ht, hseen]; decide)] at h
          have hrec := ih seen acc progs h
          rw [hrec]
          have hpairs : (extractedPairs (item :: rest)).filter (fun q => !(seen.contains q.1))
              = (extractedPairs rest).filter (fun q => !(seen.contains q.1)) := by
            simp [extractedPairs, List.filterMap_cons, heq, ht, hseen]
          rw [hpairs]
        · have hseen' : seen.contains handle = false := by
            cases hx : seen.contains handle
            · rfl
            · exact absurd hx hseen
          rw [if_pos (by rw [ht, hseen']; rfl)] at h
          have hrec := ih (seen ++ [handle]) (acc ++ [mkProgramRec handle name]) progs h
          rw [hrec]
          have hpairs : (extractedPairs (item :: rest)).filter (fun q => !(seen.contains q.1))
              = (handle, name) :: ((extractedPairs rest).filter (fun q => !(seen.contains q.1))) := by
            simp [extractedPairs, List.filterMap_cons, heq, ht, hseen']
          rw [hpairs, dedupFirstPairs]
          have hfilters : ((extractedPairs rest).filter (fun q => !(seen.contains q.1))).filter
                (fun q => !(q.1 == (handle, name).1))
              = (extractedPairs rest).filter (fun q => !((seen ++ [handle]).contains q.1)) := by
            rw [List.filter_filter]
            refine List.filter_congr ?_
            intro a _
            rw [contains_append_singleton]
            cases seen.contains a.1 <;> cases a.1 == handle <;> rfl
          rw [hfilters]
          simp [List.append_assoc]
      · have ht' : handle.truthy = false := by
          cases hx : handle.truthy
          · rfl
          · exact absurd hx ht
        rw [if_neg (by rw [ht']; simp)] at h
        have hrec := ih seen acc progs h
        rw [hrec]
        have hpairs : (extractedPairs (item :: rest)).filter (fun q => !(seen.contains q.1))
            = (extractedPairs rest).filter (fun q => !(seen.contains q.1)) := by
          simp [extractedPairs, List.filterMap_cons, heq, ht']
        rw [hpairs]

/-- C10: for every hacktivity feed on which the extraction loop completes,
the search returns exactly the keep-first deduplication of the
handle-name pairs extracted in feed order (so records keep
first-occurrence order, the first occurrence of a handle wins, and feed
items without a truthy handle are omitted), packaged as partial
handle-and-name records; in particular any two returned records carry
different handles. -/
theorem c10_hacktivity_dedup (items progs : List Json)
    (h : (search_programs_via_hacktivity (.ok (.obj [("data", .arr items)]))).1 = .ok progs) :
    progs = (dedupFirstPairs (extractedPairs items)).map (fun q => mkProgramRec q.1 q.2)
  ∧ progs.Pairwise (fun a b => (recHandle b == recHandle a) = false) := by
  have h' : hacktivityLoop items [] [] = .ok progs := h
  have heq := hacktivityLoop_ok items [] [] progs h'
  have hfilter : (extractedPairs items).filter (fun q => !(([] : List Json).contains q.1))
      = extractedPairs items := List.filter_true _
  rw [hfilter] at heq
  simp only [List.nil_append] at heq
  refine ⟨heq, ?_⟩
  rw [heq, List.pairwise_map]
  refine (dedupFirstPairs_pairwise (extractedPairs items)).imp ?_
  intro a b hab
  exact hab

/-- C10 (witness): a four-item feed with a duplicated handle, an item
lacking a handle, and a second handle. -/
theorem c10_hacktivity_witness :
    (search_programs_via_hacktivity (.ok (.obj [("data", .arr
      [.obj [("relationships", .obj [("program", .obj [("data", .obj [("attributes",
         Json.obj [("handle", .str "a"), ("name", .str "A")])])])])],
       .obj [("relationships", .obj [("program", .obj [("data", .obj [("attributes",
         Json.obj [("handle", .str "a"), ("name", .str "A2")])])])])],
       .obj [],
       .obj [("relationships", .obj [("program", .obj [("data", .obj [("attributes",
         Json.obj [("handle", .str "b"), ("name", .str "B")])])])])]])]))).1
      = .ok [mkProgramRec (.str "a") (.str "A"), mkProgramRec (.str "b") (.str "B")]
  ∧ ([mkProgramRec (.str "a") (.str "A"), mkProgramRec (.str "b") (.str "B")]
        = (dedupFirstPairs (extractedPairs
            [.obj [("relationships", .obj [("program", .obj [("data", .obj [("attributes",
               Json.obj [("handle", .str "a"), ("name", .str "A")])])])])],
             .obj [("relationships", .obj [("program", .obj [("data", .obj [("attributes",
               Json.obj [("handle", .str "a"), ("name", .str "A2")])])])])],
             .obj [],
             .obj [("relationships", .obj [("program", .obj [("data", .obj [("attributes",
               Json.obj [("handle", .str "b"), ("name", .str "B")])])])])]])).map
            (fun q => mkProgramRec q.1 q.2)
      ∧ ([mkProgramRec (.str "a") (.str "A"), mkProgramRec (.str "b") (.str "B")] :
          List Json).Pairwise (fun a b => (recHandle b == recHandle a) = false)) :=
  ⟨rfl,
   c10_hacktivity_dedup
     [.obj [("relationships", .obj [("program", .obj [("data", .obj [("attributes",
        Json.obj [("handle", .str "a"), ("name", .str "A")])])])])],
      .obj [("relationships", .obj [("program", .obj [("data", .obj [("attributes",
        Json.obj [("handle", .str "a"), ("name", .str "A2")])])])])],
      .obj [],
      .obj [("relationships", .obj [("program", .obj [("data", .obj [("attributes",
        Json.obj [("handle", .str "b"), ("name", .str "B")])])])])]]
     [mkProgramRec (.str "a") (.str "A"), mkProgramRec (.str "b") (.str "B")] rfl⟩

/-- C2 (witness). -/
theorem c2_fetch_failure_witness :
    ((∃ e, (Except.error "boom" : Except String (Option Json × List String)) = .error e)
      ∨ ∃ outs, (Except.error "boom" : Except String (Option Json × List String)) = .ok (none, outs))
  ∧ ((∃ pre post,
        (fetch_hackerone_content (.error "boom") (initial_state "h1" "N1")).1.program_content
          = pre ++ "Error:" ++ post)
    ∧ (∃ em, (fetch_hackerone_content (.error "boom") (initial_state "h1" "N1")).1.messages
          = (initial_state "h1" "N1").messages ++ [em])
    ∧ (build_agent_graph (fun _ => "S") (.error "boom") (initial_state "h1" "N1")).1.findings.length = 2
    ∧ (build_agent_graph (fun _ => "S") (.error "boom") (initial_state "h1" "N1")).1.summary = "S"
    ∧ (build_agent_graph (fun _ => "S") (.error "boom") (initial_state "h1" "N1")).2.1
        = [("hackerone_summary.md", "S")]) :=
  ⟨Or.inl ⟨"boom", rfl⟩,
   c2_fetch_failure_degrade "h1" "N1" "S" (.error "boom") (Or.inl ⟨"boom", rfl⟩)⟩
